import Mathlib

/-!
Shallow embedding of the RMTPPAD repository (a Tkinter GUI wrapping an
object-detection model) for verification of its specification.

The embedded code lives in:
  * `src/core/predictors.py`   — `BasePredictor`, `ImagePredictor`,
    `VideoPredictor`, `CameraPredictor`
  * `src/core/video_player.py` — `IndependentVideoPlayer`
  * `src/gui/main_app.py`      — `MTDETRApp`

Thread bodies are modelled as the finite trace of observable actions they
perform, parameterised by the environment observations (frames read,
writers opening, the stop flag being observed false).  Pure path / state
manipulation is modelled as Lean functions over `String` and `List String`
(a filesystem is the list of existing paths).
-/

namespace RMTPPAD

/-- Observable actions performed by the threads of the program. -/
inductive Ev where
  /-- `cap.read()` returning `ret`. -/
  | capRead (ok : Bool)
  /-- `cap.release()` (any capture handle owned by the enclosing routine). -/
  | capRelease
  /-- `cv2.VideoWriter(...)` constructed; `opened` is `isOpened()`. -/
  | writerInit (opened : Bool)
  /-- `writer.write(frame)` on the realtime / camera output writer. -/
  | writerWrite
  /-- `writer.release()` on the realtime / camera output writer. -/
  | writerRelease
  /-- `self.model.predict(...)` — the external inference call. -/
  | predict
  /-- `self._safe_update_preview_frame(frame, is_original)` -/
  | previewUpdate (isOriginal : Bool)
  /-- `os.makedirs(frame_unique_dir, exist_ok=True)` -/
  | mkFrameDir
  /-- assignment to `self.is_running`; `underLock` records `with self.lock`. -/
  | setRunning (v : Bool) (underLock : Bool)
  /-- call of `_clean_temp_frames_immediately` / the camera cleanup block. -/
  | cleanTempFrames
  /-- invocation of `self.complete_callback()`. -/
  | callbackInvoked
  /-- call of `_enable_right_video_play_after_popup`. -/
  | enableRightPlay
  /-- `cap.set(cv2.CAP_PROP_POS_FRAMES, 0)` — rewind for looping. -/
  | seekStart
  /-- `frame_queue.put(frame.copy())` in the player loop. -/
  | queuePut
  /-- assignment to the player's `is_playing` (always under its lock). -/
  | setPlaying (v : Bool)
  /-- assignment to the player's `is_paused` (always under its lock). -/
  | setPaused (v : Bool)
  /-- `thread.join(timeout=...)`. -/
  | joinThread
  /-- draining `frame_queue` in `IndependentVideoPlayer.stop`. -/
  | clearQueue
  /-- clearing the preview label in `IndependentVideoPlayer.stop`. -/
  | clearPreview
  /-- `time.sleep(...)`. -/
  | sleep
  /-- a `self.logger(...)` call. -/
  | log
  deriving DecidableEq, Repr

/-! ## VideoPredictor._infer_save_realtime (predictors.py:255-374)

One loop iteration that successfully read a frame falls in one of three
cases, depending on whether a saved YOLO frame file was found
(`yolo_saved_frame_path`) and whether `cv2.imread` could read it back. -/

/-- Per-frame outcome of the YOLO save-file lookup in the loop body. -/
inductive FrameCase where
  /-- no `image0.jpg/png` found under the frame's unique dir. -/
  | notFound
  /-- file found but `cv2.imread` returned `None`. -/
  | foundUnreadable
  /-- file found and read back as `pred_frame`. -/
  | foundReadable
  deriving DecidableEq, Repr

/-- Trace of one iteration of the `while self.is_running and cap.isOpened()`
loop of `_infer_save_realtime` that successfully read a frame
(predictors.py:279-347).  The preview update (line 329) happens before the
writer write (line 333); the write only happens when the realtime writer
is opened. -/
def iterTrace (writerOpened : Bool) : FrameCase → List Ev
  | .notFound => [.capRead true, .mkFrameDir, .predict, .log, .sleep]
  | .foundUnreadable => [.capRead true, .mkFrameDir, .predict, .sleep]
  | .foundReadable =>
      [.capRead true, .mkFrameDir, .predict, .previewUpdate false]
        ++ (if writerOpened then [.writerWrite] else []) ++ [.sleep]

/-- The inference loop (predictors.py:274-347).  `cases` lists the frames the
capture source still holds; `stopAt = some k` means the `is_running` flag
reads `false` from the `k`-th loop-condition check on (a `stop()` raced in);
`none` means it is never cleared externally.  Returns the loop's trace and
the final value of `is_normal_complete` (set only when `cap.read()` returned
`ret = False`, predictors.py:280-284). -/
def loopGo (writerOpened : Bool) : List FrameCase → Option Nat → List Ev × Bool
  | _, some 0 => ([], false)
  | [], _ => ([.capRead false, .log], true)
  | c :: rest, stopAt =>
      let r := loopGo writerOpened rest (stopAt.map (fun n => n - 1))
      (iterTrace writerOpened c ++ r.1, r.2)

/-- `_init_realtime_writer` (predictors.py:239-253): build an mp4v writer;
if it did not open, log and retry with XVID; finally log the outcome. -/
def initWriterTrace (mp4vOpens xvidOpens : Bool) : List Ev :=
  [.writerInit mp4vOpens]
    ++ (if mp4vOpens then [] else [.log, .writerInit xvidOpens]) ++ [.log]

/-- Environment parameters of one run of the inference thread. -/
structure InferRun where
  /-- `cv2.VideoCapture(orig_video_path).isOpened()` (predictors.py:262). -/
  capOpened : Bool
  /-- the mp4v `VideoWriter` opens (predictors.py:244). -/
  mp4vOpens : Bool
  /-- the fallback XVID `VideoWriter` opens (predictors.py:248). -/
  xvidOpens : Bool
  /-- per-frame outcomes for the frames the video still holds. -/
  cases : List FrameCase
  /-- iteration index from which `is_running` reads `false`, if stopped. -/
  stopAt : Option Nat
  /-- `complete_callback` is bound and callable (predictors.py:368). -/
  hasCallback : Bool
  deriving Repr

/-- The `finally` block of `_infer_save_realtime` (predictors.py:353-374):
release `cap`, release the writer (when one was constructed), clear
`is_running` under the lock, clean the temp frames, and only on a normal
completion invoke the callback and enable the right-side playback. -/
def inferFinallyTrace (hasCap hasWriter normalComplete hasCallback : Bool) :
    List Ev :=
  (if hasCap then [.capRelease] else [])
    ++ (if hasWriter then [.writerRelease, .log] else [])
    ++ [.setRunning false true, .cleanTempFrames]
    ++ (if normalComplete && hasCallback then
          [.log, .callbackInvoked, .enableRightPlay]
        else if !normalComplete then [.log] else [])

/-- Full trace of one run of `_infer_save_realtime` (predictors.py:255-374).
When the capture does not open the try-block returns early (line 264) with
no writer constructed and `is_normal_complete = False`; the `finally` block
still runs on the (non-`None`, unopened) capture object. -/
def inferSaveRealtime (r : InferRun) : List Ev :=
  if !r.capOpened then
    [.log] ++ inferFinallyTrace true false false r.hasCallback
  else
    let opened := r.mp4vOpens || r.xvidOpens
    let lp := loopGo opened r.cases r.stopAt
    initWriterTrace r.mp4vOpens r.xvidOpens ++ lp.1
      ++ inferFinallyTrace true true lp.2 r.hasCallback

/-- Whether the realtime writer is open after the given trace events
(opened by a successful `writerInit`, closed by `writerRelease`). -/
def writerOpenAfter (l : List Ev) : Bool :=
  l.foldl
    (fun s e =>
      match e with
      | .writerInit b => b
      | .writerRelease => false
      | _ => s)
    false

/-! ## CameraPredictor._predict_loop (predictors.py:598-695) -/

/-- Per-iteration observation of the camera loop.  The read has a retry:
a failed `cap.read()` is retried once (predictors.py:606-612). -/
inductive CamObs where
  /-- both reads fail: log, sleep 0.05s, continue. -/
  | readFailTwice
  /-- a frame was obtained (`retried` = only the second read succeeded),
  with the per-frame YOLO save-file outcome. -/
  | frame (retried : Bool) (c : FrameCase)
  deriving DecidableEq, Repr

/-- Trace of one iteration of the camera loop body (predictors.py:605-692).
Unlike the video loop, the original frame is previewed (left label) before
the inference call, and the writer write falls back to the original frame,
so it happens in every successful-read iteration when the writer is open. -/
def camIter (outOpened : Bool) : CamObs → List Ev
  | .readFailTwice => [.capRead false, .log, .capRead false, .sleep]
  | .frame retried c =>
      (if retried then [.capRead false, .log, .capRead true]
       else [.capRead true])
        ++ [.mkFrameDir, .previewUpdate true, .predict]
        ++ (match c with
            | .foundReadable => [.previewUpdate false]
            | .foundUnreadable => [.log]
            | .notFound => [.log])
        ++ (if outOpened then [.writerWrite] else []) ++ [.sleep]

/-- `_release_resources_and_clean_frame` (predictors.py:697-724): release
the writer (if any), release the camera (if any), then delete the temp
frames directory, then log. -/
def releaseResourcesAndCleanFrame (hasOut hasCap : Bool) : List Ev :=
  (if hasOut then [.writerRelease, .log] else [])
    ++ (if hasCap then [.capRelease] else [])
    ++ [.cleanTempFrames, .log]

/-- `_predict_loop` (predictors.py:598-695): `while True`, read `is_running`
under the lock at the top of each iteration and break when false; on exit
call `_release_resources_and_clean_frame`.  `obs` lists the iterations that
ran before the flag was observed false. -/
def cameraPredictLoop (outOpened hasOut hasCap : Bool) :
    List CamObs → List Ev
  | [] => releaseResourcesAndCleanFrame hasOut hasCap
  | o :: rest => camIter outOpened o ++ cameraPredictLoop outOpened hasOut hasCap rest

/-! ## IndependentVideoPlayer (video_player.py) -/

/-- Per-iteration observation of the player's `_play_loop`, while
`is_playing` still reads `true`. -/
inductive PlayObs where
  /-- `is_paused` observed true: sleep 0.01s, continue (video_player.py:64-66). -/
  | paused
  /-- `cap.read()` failed: rewind to frame 0, sleep, continue (lines 77-81). -/
  | readFail
  /-- a frame was read: queue it, update the left preview, pace (lines 83-98). -/
  | readOk
  deriving DecidableEq, Repr

/-- One iteration of the play loop body. -/
def playIter : PlayObs → List Ev
  | .paused => [.sleep]
  | .readFail => [.capRead false, .seekStart, .sleep]
  | .readOk => [.capRead true, .queuePut, .previewUpdate true, .sleep]

/-- `_play_loop` (video_player.py:58-98): loop until `is_playing` reads
false (modelled as the observation list running out), then return.  The
function body contains no code after the loop: in particular it never
releases the capture handle itself. -/
def playLoopTrace : List PlayObs → List Ev
  | [] => []
  | o :: rest => playIter o ++ playLoopTrace rest

/-- `IndependentVideoPlayer.stop` (video_player.py:134-165): clear
`is_playing` and `is_paused` under the lock, join the play thread, release
the capture handle (when one is loaded), drain the queue, clear the
preview, log. -/
def playerStopTrace (hasCap : Bool) : List Ev :=
  [.setPlaying false, .setPaused false, .joinThread]
    ++ (if hasCap then [.capRelease] else [])
    ++ [.clearQueue, .clearPreview, .log]

/-- Control state of `IndependentVideoPlayer`
(video_player.py:14-15): `is_playing` and `is_paused`. -/
structure PlayerState where
  is_playing : Bool
  is_paused : Bool
  deriving DecidableEq, Repr

/-- What one check of the play-loop head does (video_player.py:60-66). -/
inductive LoopAction where
  | exitLoop | sleepContinue | processFrame
  deriving DecidableEq, Repr

/-- The decision taken at the head of `_play_loop` for a given control
state: exit when not playing, otherwise sleep-and-retry when paused,
otherwise process a frame. -/
def playStep (s : PlayerState) : LoopAction :=
  if !s.is_playing then .exitLoop
  else if s.is_paused then .sleepContinue
  else .processFrame

/-- `IndependentVideoPlayer.pause` (video_player.py:124-127). -/
def pause (s : PlayerState) : PlayerState := { s with is_paused := true }

/-- `IndependentVideoPlayer.resume` (video_player.py:129-132). -/
def resume (s : PlayerState) : PlayerState := { s with is_paused := false }

/-! ## Cross-thread flag accesses

The shared mutable flags the threads coordinate on, with every access site
in the source and whether it happens inside a `with self.lock:` block. -/

/-- The shared mutable coordination flags of the predictors. -/
inductive Flag where
  | isRunning | rightPlayRunning
  deriving DecidableEq, Repr

/-- Read or write. -/
inductive AccessKind where
  | read | write
  deriving DecidableEq, Repr

/-- One access site of a shared coordination flag. -/
structure FlagAccess where
  flag : Flag
  kind : AccessKind
  underLock : Bool
  site : String
  deriving DecidableEq, Repr

/-- Every cross-thread access of `is_running` and `right_play_running` in
the source, in file order. -/
def crossThreadFlagAccesses : List FlagAccess :=
  [ ⟨.isRunning, .write, true, "predictors.py:31 BasePredictor.stop"⟩,
    ⟨.isRunning, .write, true, "predictors.py:234 VideoPredictor.start"⟩,
    ⟨.isRunning, .read, false, "predictors.py:274 _infer_save_realtime while condition"⟩,
    ⟨.isRunning, .read, false, "predictors.py:276 _infer_save_realtime break check"⟩,
    ⟨.isRunning, .write, true, "predictors.py:361 _infer_save_realtime finally"⟩,
    ⟨.rightPlayRunning, .write, false, "predictors.py:384 _enable_right_video_play_after_popup"⟩,
    ⟨.rightPlayRunning, .read, false, "predictors.py:391 _right_video_loop_play outer while"⟩,
    ⟨.rightPlayRunning, .read, false, "predictors.py:393 _right_video_loop_play check 1"⟩,
    ⟨.rightPlayRunning, .read, false, "predictors.py:401 _right_video_loop_play check 2"⟩,
    ⟨.rightPlayRunning, .read, false, "predictors.py:407 _right_video_loop_play inner while"⟩,
    ⟨.rightPlayRunning, .read, false, "predictors.py:409 _right_video_loop_play check 3"⟩,
    ⟨.rightPlayRunning, .read, false, "predictors.py:415 _right_video_loop_play check 4"⟩,
    ⟨.rightPlayRunning, .read, false, "predictors.py:434 _right_video_loop_play check 5"⟩,
    ⟨.rightPlayRunning, .write, false, "predictors.py:462 VideoPredictor.stop"⟩,
    ⟨.isRunning, .write, true, "predictors.py:543 CameraPredictor.start"⟩,
    ⟨.isRunning, .write, true, "predictors.py:553 CameraPredictor.start bad id"⟩,
    ⟨.isRunning, .write, true, "predictors.py:563 CameraPredictor.start open fail"⟩,
    ⟨.isRunning, .read, true, "predictors.py:602 CameraPredictor._predict_loop"⟩,
    ⟨.isRunning, .read, false, "main_app.py:222 MTDETRApp.start_predict"⟩ ]

/-- The spec's reading: every access is to `is_running` and under the lock. -/
def onlyLockedRunningFlag (l : List FlagAccess) : Prop :=
  ∀ a ∈ l, a.flag = Flag.isRunning ∧ a.underLock = true

/-! ## Paths and the filesystem

A filesystem is the list of existing paths; `os.path.join` on the names
the program builds is plain separator concatenation. -/

/-- `startsWithChars s p`: `p` is an initial segment of `s`. -/
def startsWithChars : List Char → List Char → Bool
  | _, [] => true
  | [], _ :: _ => false
  | a :: as, b :: bs => a == b && startsWithChars as bs

/-- String version of `startsWithChars`. -/
def strStarts (s p : String) : Bool := startsWithChars s.data p.data

/-- `shutil.rmtree(root, ignore_errors=True)` on the path-list filesystem:
remove `root` and everything strictly below it. -/
def rmtreeList (root : String) (fs : List String) : List String :=
  fs.filter (fun p => !(p == root || strStarts p (root ++ "/")))

/-- `VideoPredictor._clean_temp_frames_immediately` (predictors.py:438-455):
if the temp frames root does not exist, log and return the filesystem
unchanged; otherwise delete the tree. -/
def cleanTempFramesImmediately (root : String) (fs : List String) :
    List String :=
  if fs.contains root then rmtreeList root fs else fs

/-- The camera cleanup block (predictors.py:711-721): same existence check
and `shutil.rmtree(..., ignore_errors=True)` call. -/
def cameraCleanFrames (root : String) (fs : List String) : List String :=
  if fs.contains root then rmtreeList root fs else fs

/-! ## set_save_dir and _create_exclusive_sub_dir -/

/-- `ImagePredictor.set_save_dir` (predictors.py:98-105) and
`VideoPredictor.set_save_dir` (predictors.py:187-193): keep the new root
only when it is truthy and exists on the filesystem, else `None`. -/
def set_save_dir (fs : List String) (newSaveRoot : Option String) :
    Option String :=
  match newSaveRoot with
  | some r => if !(r == "") && fs.contains r then some r else none
  | none => none

/-- `BasePredictor._create_exclusive_sub_dir` (predictors.py:76-89): with no
valid root (or no sub-dir name) fall back to `predict_results` next to the
predictors module, joined with the sub-dir name; else join root and
sub-dir name.  The directory is then created with `exist_ok=True`, so the
call never aborts the prediction. -/
def createExclusiveSubDir (saveRoot : Option String) (subDirName : String)
    (moduleDir : String) : String :=
  match saveRoot with
  | none => moduleDir ++ "/predict_results/" ++ subDirName
  | some root =>
      if root == "" || subDirName == "" then
        moduleDir ++ "/predict_results/" ++ subDirName
      else root ++ "/" ++ subDirName

/-! ## Video writer initialisation and fallback -/

/-- A `cv2.VideoWriter`: the path it writes to, its codec, and whether it
opened. -/
structure Writer where
  path : String
  codec : String
  opened : Bool
  deriving DecidableEq, Repr

/-- `cv2.VideoWriter(path, fourcc(codec), ...)` against an environment
`opens` telling which (path, codec) pairs open successfully. -/
def mkWriter (opens : String → String → Bool) (path codec : String) :
    Writer :=
  { path := path, codec := codec, opened := opens path codec }

/-- Chars of `os.path.splitext(s)[0]`: keep everything before the last
dot, drop the last dot and what follows; no dot leaves `s` unchanged. -/
def splitExtChars : List Char → List Char
  | [] => []
  | c :: rest =>
      if rest.contains '.' then c :: splitExtChars rest
      else if c == '.' then []
      else c :: splitExtChars rest

/-- `os.path.splitext(s)[0]` on the extension-carrying names the program
builds. -/
def splitExtFst (s : String) : String := ⟨splitExtChars s.data⟩

/-- `VideoPredictor._init_realtime_writer` (predictors.py:239-253): open an
mp4v writer on `pred_mp4_path`; if it did not open, replace the extension
with `.avi` and retry with XVID.  Returns the final `pred_mp4_path` and
the final `realtime_video_writer`. -/
def initRealtimeWriter (opens : String → String → Bool)
    (predMp4Path : String) : String × Writer :=
  let w := mkWriter opens predMp4Path "mp4v"
  if !w.opened then
    let newPath := splitExtFst predMp4Path ++ ".avi"
    (newPath, mkWriter opens newPath "XVID")
  else (predMp4Path, w)

/-- The mp4 save name `CameraPredictor.start` builds at time `t`
(predictors.py:575). -/
def cameraMp4Name (t : Nat) : String := "camera_pred_" ++ toString t ++ ".mp4"

/-- The avi fallback save name `CameraPredictor.start` builds at time `t`
(predictors.py:583) — a fresh `time.time()` call, not a rename. -/
def cameraAviName (t : Nat) : String := "camera_pred_" ++ toString t ++ ".avi"

/-- Writer initialisation in `CameraPredictor.start` (predictors.py:575-591):
build `result_path` from the first clock reading `t1` and open an mp4v
writer; if it did not open, rebuild `result_path` from a second clock
reading `t2` with an `.avi` suffix and retry with XVID.  Returns the final
`result_path` and the final `self.out` writer. -/
def cameraInitWriter (opens : String → String → Bool)
    (actualSaveDir : String) (t1 t2 : Nat) : String × Writer :=
  let resultPath := actualSaveDir ++ "/" ++ cameraMp4Name t1
  let w := mkWriter opens resultPath "mp4v"
  if !w.opened then
    let resultPath2 := actualSaveDir ++ "/" ++ cameraAviName t2
    (resultPath2, mkWriter opens resultPath2 "XVID")
  else (resultPath, w)

/-! ## Helper lemmas -/

/-- In a list of the form `A ++ c :: C` where `c` occurs in neither `A`
nor `C`, any decomposition around `c` is that decomposition. -/
theorem split_around {α : Type} (c : α) : ∀ (A C l1 l2 : List α),
    c ∉ A → c ∉ C → A ++ c :: C = l1 ++ c :: l2 → l1 = A ∧ l2 = C := by
  intro A
  induction A with
  | nil =>
    intro C l1 l2 _ hC h
    cases l1 with
    | nil =>
      simp only [List.nil_append, List.cons.injEq, true_and] at h
      exact ⟨rfl, h.symm⟩
    | cons x l1' =>
      simp only [List.nil_append, List.cons_append, List.cons.injEq] at h
      exact absurd (h.2 ▸ List.mem_append_right l1' (List.mem_cons_self c l2)) hC
  | cons a A' ih =>
    intro C l1 l2 hA hC h
    cases l1 with
    | nil =>
      simp only [List.cons_append, List.nil_append, List.cons.injEq] at h
      exact absurd (h.1 ▸ List.mem_cons_self a A') hA
    | cons x l1' =>
      simp only [List.cons_append, List.cons.injEq] at h
      obtain ⟨hax, h'⟩ := h
      obtain ⟨h1, h2⟩ := ih C l1' l2 (fun hm => hA (List.mem_cons_of_mem a hm)) hC h'
      exact ⟨by rw [h1, hax], h2⟩

/-- The completion callback is never invoked inside a loop iteration. -/
theorem callback_not_mem_iterTrace (w : Bool) (c : FrameCase) :
    Ev.callbackInvoked ∉ iterTrace w c := by
  cases w <;> cases c <;> decide

/-- The completion callback is never invoked inside the inference loop. -/
theorem callback_not_mem_loopGo (w : Bool) (cs : List FrameCase) (st : Option Nat) :
    Ev.callbackInvoked ∉ (loopGo w cs st).1 := by
  induction cs generalizing st with
  | nil =>
    match st with
    | none =>
      rw [show loopGo w [] none = ([.capRead false, .log], true) from rfl]
      decide
    | some 0 =>
      rw [show loopGo w [] (some 0) = ([], false) from rfl]
      decide
    | some (n + 1) =>
      rw [show loopGo w [] (some (n + 1)) = ([.capRead false, .log], true) from rfl]
      decide
  | cons c rest ih =>
    match st with
    | some 0 =>
      rw [show loopGo w (c :: rest) (some 0) = ([], false) from rfl]
      decide
    | none =>
      rw [show loopGo w (c :: rest) none =
        (iterTrace w c ++ (loopGo w rest none).1, (loopGo w rest none).2) from rfl]
      simp only [List.mem_append]
      rintro (h | h)
      · exact callback_not_mem_iterTrace w c h
      · exact ih none h
    | some (n + 1) =>
      rw [show loopGo w (c :: rest) (some (n + 1)) =
        (iterTrace w c ++ (loopGo w rest (some n)).1,
          (loopGo w rest (some n)).2) from rfl]
      simp only [List.mem_append]
      rintro (h | h)
      · exact callback_not_mem_iterTrace w c h
      · exact ih (some n) h

/-- The completion callback is never invoked during writer initialisation. -/
theorem callback_not_mem_initWriterTrace (m x : Bool) :
    Ev.callbackInvoked ∉ initWriterTrace m x := by
  cases m <;> cases x <;> decide

/-- Unfolding `inferSaveRealtime` on an explicit record. -/
theorem inferSaveRealtime_eq (co m x : Bool) (cs : List FrameCase)
    (st : Option Nat) (hc : Bool) :
    inferSaveRealtime ⟨co, m, x, cs, st, hc⟩ =
      if co then
        initWriterTrace m x ++ (loopGo (m || x) cs st).1
          ++ inferFinallyTrace true true (loopGo (m || x) cs st).2 hc
      else [.log] ++ inferFinallyTrace true false false hc := by
  cases co <;> rfl

/-- The cleanup call appears in every `finally` trace of the inference
thread (the capture handle exists on every path reaching `finally`). -/
theorem cleanTempFrames_mem_finally (w nc hc : Bool) :
    Ev.cleanTempFrames ∈ inferFinallyTrace true w nc hc := by
  cases w <;> cases nc <;> cases hc <;> decide

/-- The capture release appears in every `finally` trace of the
inference thread. -/
theorem capRelease_mem_finally (w nc hc : Bool) :
    Ev.capRelease ∈ inferFinallyTrace true w nc hc := by
  cases w <;> cases nc <;> cases hc <;> decide

/-- Every run of the inference thread reaches the temp-frame cleanup. -/
theorem cleanTempFrames_mem_infer (r : InferRun) :
    Ev.cleanTempFrames ∈ inferSaveRealtime r := by
  obtain ⟨co, m, x, cs, st, hc⟩ := r
  rw [inferSaveRealtime_eq]
  cases co with
  | false =>
    rw [if_neg (by simp)]
    exact List.mem_append_right _ (cleanTempFrames_mem_finally false false hc)
  | true =>
    rw [if_pos rfl]
    rw [List.append_assoc]
    exact List.mem_append_right _
      (List.mem_append_right _ (cleanTempFrames_mem_finally true _ hc))

/-- Every run of the inference thread releases its capture handle. -/
theorem capRelease_mem_infer (r : InferRun) :
    Ev.capRelease ∈ inferSaveRealtime r := by
  obtain ⟨co, m, x, cs, st, hc⟩ := r
  rw [inferSaveRealtime_eq]
  cases co with
  | false =>
    rw [if_neg (by simp)]
    exact List.mem_append_right _ (capRelease_mem_finally false false hc)
  | true =>
    rw [if_pos rfl]
    rw [List.append_assoc]
    exact List.mem_append_right _
      (List.mem_append_right _ (capRelease_mem_finally true _ hc))

/-- Every run of the camera loop reaches the temp-frame cleanup. -/
theorem cleanTempFrames_mem_cameraLoop (oo ho hcp : Bool) (obs : List CamObs) :
    Ev.cleanTempFrames ∈ cameraPredictLoop oo ho hcp obs := by
  induction obs with
  | nil =>
    show Ev.cleanTempFrames ∈ releaseResourcesAndCleanFrame ho hcp
    cases ho <;> cases hcp <;> decide
  | cons o rest ih =>
    exact List.mem_append_right _ ih

/-- Every run of the camera loop whose capture exists releases it. -/
theorem capRelease_mem_cameraLoop (oo ho : Bool) (obs : List CamObs) :
    Ev.capRelease ∈ cameraPredictLoop oo ho true obs := by
  induction obs with
  | nil =>
    show Ev.capRelease ∈ releaseResourcesAndCleanFrame ho true
    cases ho <;> decide
  | cons o rest ih =>
    exact List.mem_append_right _ ih

/-- The player loop never performs a capture release. -/
theorem capRelease_not_mem_playLoop (pobs : List PlayObs) :
    Ev.capRelease ∉ playLoopTrace pobs := by
  induction pobs with
  | nil => decide
  | cons o rest ih =>
    simp only [playLoopTrace, List.mem_append]
    rintro (h | h)
    · cases o <;> revert h <;> decide
    · exact ih h

/-! ## Claims -/

/-- Claim C1: in every run of `VideoPredictor._infer_save_realtime`, at
any point where the completion callback is invoked, the realtime video
writer has already been released strictly earlier in the trace, and the
writer is not open when the callback runs. -/
theorem writer_released_before_complete_callback (r : InferRun)
    (l1 l2 : List Ev)
    (h : inferSaveRealtime r = l1 ++ Ev.callbackInvoked :: l2) :
    Ev.writerRelease ∈ l1 ∧ writerOpenAfter l1 = false := by
  have hmem : Ev.callbackInvoked ∈ inferSaveRealtime r := by
    rw [h]; exact List.mem_append_right l1 (List.mem_cons_self _ _)
  obtain ⟨co, m, x, cs, st, hc⟩ := r
  rw [inferSaveRealtime_eq] at h hmem
  cases co with
  | false =>
    exfalso
    rw [if_neg (by simp)] at hmem
    rw [show inferFinallyTrace true false false hc =
      [.capRelease, .setRunning false true, .cleanTempFrames, .log] from rfl] at hmem
    exact absurd hmem (by decide)
  | true =>
    rw [if_pos rfl] at h hmem
    set L := loopGo (m || x) cs st with hL
    cases hnc : L.2 with
    | false =>
      exfalso
      rw [hnc] at hmem
      rw [show inferFinallyTrace true true false hc =
        [.capRelease, .writerRelease, .log, .setRunning false true,
          .cleanTempFrames, .log] from rfl] at hmem
      simp only [List.mem_append] at hmem
      rcases hmem with (hm | hm) | hm
      · exact callback_not_mem_initWriterTrace m x hm
      · exact callback_not_mem_loopGo (m || x) cs st (hL ▸ hm)
      · exact absurd hm (by decide)
    | true =>
      cases hc with
      | false =>
        exfalso
        rw [hnc] at hmem
        rw [show inferFinallyTrace true true true false =
          [.capRelease, .writerRelease, .log, .setRunning false true,
            .cleanTempFrames] from rfl] at hmem
        simp only [List.mem_append] at hmem
        rcases hmem with (hm | hm) | hm
        · exact callback_not_mem_initWriterTrace m x hm
        · exact callback_not_mem_loopGo (m || x) cs st (hL ▸ hm)
        · exact absurd hm (by decide)
      | true =>
        rw [hnc] at h
        have hshape : initWriterTrace m x ++ L.1
            ++ inferFinallyTrace true true true true =
            ((initWriterTrace m x ++ L.1)
              ++ [.capRelease, .writerRelease, .log, .setRunning false true,
                  .cleanTempFrames, .log])
              ++ Ev.callbackInvoked :: [Ev.enableRightPlay] := by
          simp [inferFinallyTrace, List.append_assoc]
        rw [hshape] at h
        have hA : Ev.callbackInvoked ∉
            (initWriterTrace m x ++ L.1)
              ++ ([.capRelease, .writerRelease, .log, .setRunning false true,
                  .cleanTempFrames, .log] : List Ev) := by
          simp only [List.mem_append]
          rintro ((hm | hm) | hm)
          · exact callback_not_mem_initWriterTrace m x hm
          · exact callback_not_mem_loopGo (m || x) cs st (hL ▸ hm)
          · exact absurd hm (by decide)
        obtain ⟨h1, _⟩ :=
          split_around Ev.callbackInvoked _ [Ev.enableRightPlay] l1 l2 hA
            (by decide) h
        subst h1
        constructor
        · exact List.mem_append_right _ (by decide)
        · rw [writerOpenAfter, List.foldl_append]
          rfl

/-- Witness for C1: the run that opens the capture and the mp4v writer,
reads zero frames (immediate end of video) and has a callback bound. -/
theorem writer_released_before_complete_callback_witness :
    Ev.writerRelease ∈
      ([.writerInit true, .log, .capRead false, .log, .capRelease,
        .writerRelease, .log, .setRunning false true, .cleanTempFrames,
        .log] : List Ev) ∧
    writerOpenAfter
      [.writerInit true, .log, .capRead false, .log, .capRelease,
        .writerRelease, .log, .setRunning false true, .cleanTempFrames,
        .log] = false :=
  writer_released_before_complete_callback ⟨true, true, true, [], none, true⟩
    [.writerInit true, .log, .capRead false, .log, .capRelease,
      .writerRelease, .log, .setRunning false true, .cleanTempFrames, .log]
    [Ev.enableRightPlay] (by decide)

/-- Claim C2, as stated, is false: not every cross-thread access of a
predictor coordination flag is an access of `is_running` under the lock —
witnessed by the access table read off the source (e.g. the loop
condition at predictors.py:274 reads `is_running` without the lock, and
`right_play_running` is a second flag with no lock at all). -/
theorem only_locked_running_flag_refuted :
    ¬ onlyLockedRunningFlag crossThreadFlagAccesses := by
  unfold onlyLockedRunningFlag
  decide

/-- Claim C2 (amended): every cross-thread write of `is_running` is under
the predictor's lock, but `is_running` is also read without the lock (in
the video inference loop and the GUI), and `right_play_running` is an
additional shared mutable flag accessed entirely without a lock. -/
theorem running_flag_writes_locked_other_accesses_unlocked :
    (∀ a ∈ crossThreadFlagAccesses, a.flag = Flag.isRunning →
      a.kind = AccessKind.write → a.underLock = true) ∧
    (∃ a ∈ crossThreadFlagAccesses, a.flag = Flag.isRunning ∧
      a.kind = AccessKind.read ∧ a.underLock = false) ∧
    (∃ a ∈ crossThreadFlagAccesses, a.flag = Flag.rightPlayRunning ∧
      a.underLock = false) ∧
    (∀ a ∈ crossThreadFlagAccesses, a.flag = Flag.rightPlayRunning →
      a.underLock = false) := by decide

/-- Claim C3, as stated, is false at the writing iteration of the video
inference loop: the preview update comes strictly before the writer
write, not after it. -/
theorem video_loop_write_then_preview_refuted :
    (iterTrace true FrameCase.foundReadable).indexOf (Ev.previewUpdate false) <
      (iterTrace true FrameCase.foundReadable).indexOf Ev.writerWrite ∧
    ¬ ((iterTrace true FrameCase.foundReadable).indexOf Ev.writerWrite <
      (iterTrace true FrameCase.foundReadable).indexOf
        (Ev.previewUpdate false)) := by
  decide

/-- Claim C3 (amended): in every iteration of the video inference loop
that writes the annotated frame to the output video, the steps occur in
the order: read the frame, call the external `predict()`, update the UI
preview label, then write the annotated frame to the output video. -/
theorem video_loop_order_read_predict_preview_write (w : Bool)
    (c : FrameCase) (h : Ev.writerWrite ∈ iterTrace w c) :
    iterTrace w c = [.capRead true, .mkFrameDir, .predict,
      .previewUpdate false, .writerWrite, .sleep] := by
  cases w <;> cases c <;> revert h <;> decide

/-- Witness for the amended C3 at the iteration with an opened writer and
a readable saved frame. -/
theorem video_loop_order_read_predict_preview_write_witness :
    Ev.writerWrite ∈ iterTrace true FrameCase.foundReadable ∧
    iterTrace true FrameCase.foundReadable =
      [.capRead true, .mkFrameDir, .predict, .previewUpdate false,
        .writerWrite, .sleep] :=
  ⟨by decide,
    video_loop_order_read_predict_preview_write true FrameCase.foundReadable
      (by decide)⟩

/-- Claim C4: every run of the video inference thread and of the camera
loop reaches the temp-frame cleanup (whether it ended by exhausting the
frames or by `stop()`), and the cleanup removes the temp frames root and
everything below it from the filesystem; the camera cleanup block has the
same semantics. -/
theorem temp_frames_cleaned_after_run (r : InferRun) (oo ho hcp : Bool)
    (obs : List CamObs) (root : String) (fs : List String)
    (hroot : root ∈ fs) :
    Ev.cleanTempFrames ∈ inferSaveRealtime r ∧
    Ev.cleanTempFrames ∈ cameraPredictLoop oo ho hcp obs ∧
    root ∉ cleanTempFramesImmediately root fs ∧
    (∀ p ∈ cleanTempFramesImmediately root fs,
      p ≠ root ∧ strStarts p (root ++ "/") = false) ∧
    cameraCleanFrames root fs = cleanTempFramesImmediately root fs := by
  have hc : fs.contains root = true := by simpa using hroot
  refine ⟨cleanTempFrames_mem_infer r,
    cleanTempFrames_mem_cameraLoop oo ho hcp obs, ?_, ?_, rfl⟩
  · unfold cleanTempFramesImmediately
    rw [hc, if_pos rfl]
    unfold rmtreeList
    intro hmem
    simp only [List.mem_filter] at hmem
    simp at hmem
  · unfold cleanTempFramesImmediately
    rw [hc, if_pos rfl]
    unfold rmtreeList
    intro p hmem
    simp only [List.mem_filter, Bool.not_eq_true', Bool.or_eq_false_iff,
      beq_eq_false_iff_ne] at hmem
    exact ⟨hmem.2.1, hmem.2.2⟩

/-- Witness for C4: a stopped video run, an empty camera run, and a
filesystem holding the temp root with one saved frame file in it. -/
theorem temp_frames_cleaned_after_run_witness :
    Ev.cleanTempFrames ∈ inferSaveRealtime ⟨true, true, true,
      [FrameCase.foundReadable], some 1, true⟩ ∧
    Ev.cleanTempFrames ∈ cameraPredictLoop true true true [] ∧
    "sv/videos/frames" ∉ cleanTempFramesImmediately "sv/videos/frames"
      ["sv", "sv/videos", "sv/videos/frames",
        "sv/videos/frames/frame_000000_1/image0.jpg"] ∧
    (∀ p ∈ cleanTempFramesImmediately "sv/videos/frames"
      ["sv", "sv/videos", "sv/videos/frames",
        "sv/videos/frames/frame_000000_1/image0.jpg"],
      p ≠ "sv/videos/frames" ∧
        strStarts p ("sv/videos/frames" ++ "/") = false) ∧
    cameraCleanFrames "sv/videos/frames"
        ["sv", "sv/videos", "sv/videos/frames",
          "sv/videos/frames/frame_000000_1/image0.jpg"] =
      cleanTempFramesImmediately "sv/videos/frames"
        ["sv", "sv/videos", "sv/videos/frames",
          "sv/videos/frames/frame_000000_1/image0.jpg"] :=
  temp_frames_cleaned_after_run ⟨true, true, true,
      [FrameCase.foundReadable], some 1, true⟩ true true true []
    "sv/videos/frames"
    ["sv", "sv/videos", "sv/videos/frames",
      "sv/videos/frames/frame_000000_1/image0.jpg"] (by decide)

/-- Claim C5, as stated, is false for the independent video player: a run
of `_play_loop` that read one frame and then observed the stop flag
performs no capture release at all — the release lives in
`IndependentVideoPlayer.stop`, not in the loop. -/
theorem play_loop_self_release_refuted :
    Ev.capRelease ∉ playLoopTrace [PlayObs.readOk] := by decide

/-- Claim C5 (amended): the video inference loop and the camera loop
release their own capture handles on exit; the player's play loop never
releases its handle itself — the handle is instead released by
`IndependentVideoPlayer.stop`, the only method that clears `is_playing`
and so the only way the loop exits. -/
theorem capture_release_lifecycle (r : InferRun) (oo ho : Bool)
    (obs : List CamObs) (pobs : List PlayObs) :
    Ev.capRelease ∈ inferSaveRealtime r ∧
    Ev.capRelease ∈ cameraPredictLoop oo ho true obs ∧
    Ev.capRelease ∉ playLoopTrace pobs ∧
    Ev.capRelease ∈ playerStopTrace true :=
  ⟨capRelease_mem_infer r, capRelease_mem_cameraLoop oo ho obs,
    capRelease_not_mem_playLoop pobs, by decide⟩

/-- Claim C6, as stated, is false: the play-loop head's behaviour is not
a function of `is_playing` alone — at `is_playing = true` it differs
between the paused and unpaused states. -/
theorem single_running_flag_state_refuted :
    ¬ ∀ s t : PlayerState, s.is_playing = t.is_playing →
      playStep s = playStep t := by
  intro h
  exact absurd (h ⟨true, false⟩ ⟨true, true⟩ rfl) (by decide)

/-- Claim C6 (amended): the independent video player's control state is
the pair `(is_playing, is_paused)`: `pause` moves a playing player into a
distinct paused state with the same `is_playing` in which the loop sleeps
instead of processing frames, `resume` undoes it, and only
`is_playing = false` exits the loop. -/
theorem player_paused_control_state :
    pause ⟨true, false⟩ = (⟨true, true⟩ : PlayerState) ∧
    (pause ⟨true, false⟩).is_playing = (PlayerState.mk true false).is_playing ∧
    playStep (pause ⟨true, false⟩) = LoopAction.sleepContinue ∧
    playStep ⟨true, false⟩ = LoopAction.processFrame ∧
    resume (pause ⟨true, false⟩) = (⟨true, false⟩ : PlayerState) ∧
    (∀ p : Bool, playStep ⟨false, p⟩ = LoopAction.exitLoop) := by decide

/-- Claim C7: in every iteration of the camera loop in which a frame was
successfully read, the frame is forwarded both to the inference call and
to the original-frame preview label. -/
theorem camera_frame_forwarded_to_predict_and_preview (w : Bool)
    (o : CamObs) (h : Ev.capRead true ∈ camIter w o) :
    Ev.predict ∈ camIter w o ∧ Ev.previewUpdate true ∈ camIter w o := by
  cases o with
  | readFailTwice => revert h; cases w <;> decide
  | frame retried c => revert h; cases w <;> cases retried <;> cases c <;> decide

/-- Witness for C7 at an ordinary successful iteration. -/
theorem camera_frame_forwarded_to_predict_and_preview_witness :
    Ev.capRead true ∈ camIter true (CamObs.frame false FrameCase.foundReadable) ∧
    Ev.predict ∈ camIter true (CamObs.frame false FrameCase.foundReadable) ∧
    Ev.previewUpdate true ∈
      camIter true (CamObs.frame false FrameCase.foundReadable) :=
  ⟨by decide,
    camera_frame_forwarded_to_predict_and_preview true
      (CamObs.frame false FrameCase.foundReadable) (by decide)⟩

/-- Claim C8: for an empty, `None`, or non-existing input,
`set_save_dir` leaves `save_root` as `None`, and the next
`_create_exclusive_sub_dir` then resolves to the fallback
`predict_results` directory next to the predictors module joined with the
predictor's sub-dir name (a total function: the prediction proceeds). -/
theorem invalid_save_dir_falls_back_to_default (fs : List String)
    (input : Option String) (sub moduleDir : String)
    (h : ∀ r, input = some r → r = "" ∨ fs.contains r = false) :
    set_save_dir fs input = none ∧
    createExclusiveSubDir (set_save_dir fs input) sub moduleDir =
      moduleDir ++ "/predict_results/" ++ sub := by
  have hnone : set_save_dir fs input = none := by
    cases input with
    | none => rfl
    | some r =>
      rcases h r rfl with hr | hr
      · subst hr; rfl
      · simp only [set_save_dir]
        rw [hr]
        simp
  exact ⟨hnone, by rw [hnone]; rfl⟩

/-- Witness for C8 at a path absent from the filesystem. -/
theorem invalid_save_dir_falls_back_to_default_witness :
    set_save_dir ["/home"] (some "/nope") = none ∧
    createExclusiveSubDir (set_save_dir ["/home"] (some "/nope")) "videos"
        "/app/core" =
      "/app/core" ++ "/predict_results/" ++ "videos" :=
  invalid_save_dir_falls_back_to_default ["/home"] (some "/nope") "videos"
    "/app/core" (by intro r hr; injection hr with h2; right; rw [← h2]; decide)

/-- Claim C9, as stated, is false for the camera predictor: when the mp4v
writer fails and the two `time.time()` readings differ, the fallback path
is a fresh timestamped `.avi` name, not the mp4 path with its extension
replaced. -/
theorem camera_avi_fallback_fresh_timestamp :
    ((cameraInitWriter (fun _ c => c == "XVID") "d" 100 101).2.opened = true) ∧
    (cameraInitWriter (fun _ c => c == "XVID") "d" 100 101).1 ≠
      splitExtFst ("d" ++ "/" ++ cameraMp4Name 100) ++ ".avi" := by decide

/-- Claim C9 (amended): on mp4v failure the video predictor retries with
XVID on the path with its extension replaced by `.avi`, while the camera
predictor retries with XVID on a freshly timestamped `.avi` name; in both
predictors the recorded result path always equals the path the final
writer writes to. -/
theorem writer_fallback_records_written_path
    (opens : String → String → Bool) (path dir : String) (t1 t2 : Nat)
    (h1 : opens path "mp4v" = false)
    (h2 : opens (dir ++ "/" ++ cameraMp4Name t1) "mp4v" = false) :
    (initRealtimeWriter opens path).1 = splitExtFst path ++ ".avi" ∧
    (initRealtimeWriter opens path).2.codec = "XVID" ∧
    (cameraInitWriter opens dir t1 t2).1 = dir ++ "/" ++ cameraAviName t2 ∧
    (cameraInitWriter opens dir t1 t2).2.codec = "XVID" ∧
    (∀ o p, ((initRealtimeWriter o p).2).path = (initRealtimeWriter o p).1) ∧
    (∀ o d a b, ((cameraInitWriter o d a b).2).path =
      (cameraInitWriter o d a b).1) := by
  refine ⟨?_, ?_, ?_, ?_, ?_, ?_⟩
  · simp [initRealtimeWriter, mkWriter, h1]
  · simp [initRealtimeWriter, mkWriter, h1]
  · simp [cameraInitWriter, mkWriter, h2]
  · simp [cameraInitWriter, mkWriter, h2]
  · intro o p
    by_cases hw : o p "mp4v" <;> simp [initRealtimeWriter, mkWriter, hw]
  · intro o d a b
    by_cases hw : o (d ++ "/" ++ cameraMp4Name a) "mp4v" <;>
      simp [cameraInitWriter, mkWriter, hw]

/-- Witness for the amended C9: an environment in which no writer ever
opens, so both predictors take the fallback branch. -/
theorem writer_fallback_records_written_path_witness :
    (initRealtimeWriter (fun _ _ => false) "v.mp4").1 =
      splitExtFst "v.mp4" ++ ".avi" ∧
    (initRealtimeWriter (fun _ _ => false) "v.mp4").2.codec = "XVID" ∧
    (cameraInitWriter (fun _ _ => false) "d" 5 6).1 =
      "d" ++ "/" ++ cameraAviName 6 ∧
    (cameraInitWriter (fun _ _ => false) "d" 5 6).2.codec = "XVID" ∧
    (∀ o p, ((initRealtimeWriter o p).2).path = (initRealtimeWriter o p).1) ∧
    (∀ o d a b, ((cameraInitWriter o d a b).2).path =
      (cameraInitWriter o d a b).1) :=
  writer_fallback_records_written_path (fun _ _ => false) "v.mp4" "d" 5 6
    rfl rfl

end RMTPPAD
